import Mathlib

/-!
Verification of the `ros2bag` reindexer core
(`reindex_base.py`, `bag_metadata.py`, `reindex_sqlite.py`)
against its natural-language specification.

The Python modules are shallowly embedded: the mutable `MetadataWriter`
object becomes a `MetadataWriter` structure passed explicitly; a method
that may raise `ValueError` returns the post-call state paired with an
`Option PyError` (Python keeps the partially-mutated object alive when an
exception propagates, so the state is returned even on error); filesystem
facts (`is_dir`, directory entries) are passed in as parameters; the
yaml document is modelled by a structure with exactly the keys the code
emits, in their fixed order.
-/

namespace Rosbag2

/-! ### POSIX path model (`pathlib` as used by the code)

A path is modelled by its string.  `pathlib.PurePosixPath.is_absolute`
holds exactly when the path string starts with `/`; `parent / name`
(as produced by `Path.iterdir`) renders as `parent ++ "/" ++ name`,
except that the directory `.` (or the empty string, which `pathlib`
normalises to `.`) yields the bare name; `Path.suffix` is the
extension of the final component: `name[i:]` where `i` is the last index of `.`
in the name, provided `0 < i < len(name) - 1`, else the empty string. -/

/-- Predicate `PurePosixPath.is_absolute`: the path string starts with `/`. -/
def pyIsAbsolute (s : String) : Bool :=
  match s.data with
  | [] => false
  | c :: _ => c = '/'

/-- Join `parent / name` for a child entry of directory `d`, as a string
 (`Path.iterdir` yields the parent-joined path). -/
def pyJoin (d name : String) : String :=
  if d = "" ∨ d = "." then name else d ++ "/" ++ name

/-- Computes `PurePosixPath.suffix` of a file name. -/
def pySuffix (name : String) : String :=
  let cs := name.data
  let dots := (List.range cs.length).filter fun i => cs.getD i ' ' = '.'
  match dots.getLast? with
  | none => ""
  | some i => if 0 < i ∧ i < cs.length - 1 then String.mk (cs.drop i) else ""

/-! ### Error model

The code raises `ValueError` for every validation failure (the spec
calls these `ValidationError`).  `ros2bag.api.print_error` is outside
`src/`. -/

/-- A raised Python exception. Only `ValueError` occurs in this code. -/
inductive PyError where
  | valueError (msg : String)
deriving Repr, DecidableEq

/-- Modelled from the spec: `ros2bag.api.print_error` is not under `src/`;
per §1 it is "error-message formatting" glue that decorates and returns its
message, which the spec requires to keep naming the offending value. -/
def print_error (msg : String) : String :=
  "Error: " ++ msg

/-! ### `bag_metadata.py`: topic blocks and metadata writer state -/

/-- Structure `TopicBlock` (TypedDict). -/
structure TopicBlock where
  block_name : String
  block_type : String
  block_ser : String
  block_qos : String
deriving Repr, DecidableEq

/-- The dict produced by `block_as_dict`: fixed keys
`topic`, `type`, `serialization_format`, `offered_qos_profiles`. -/
structure TopicDict where
  topic : String
  type : String
  serialization_format : String
  offered_qos_profiles : String
deriving Repr, DecidableEq

/-- Function `block_as_dict`. -/
def block_as_dict (b : TopicBlock) : TopicDict :=
  { topic := b.block_name
    type := b.block_type
    serialization_format := b.block_ser
    offered_qos_profiles := b.block_qos }

/-- Structure `TopicMetadata` (TypedDict). -/
structure TopicMetadata where
  tm_block : TopicBlock
  tm_message_count : Int
deriving Repr, DecidableEq

/-- The dict produced by `topic_as_dict`: keys `topic_metadata`, `message_count`. -/
structure TopicWithCount where
  topic_metadata : TopicDict
  message_count : Int
deriving Repr, DecidableEq

/-- Function `topic_as_dict`. -/
def topic_as_dict (t : TopicMetadata) : TopicWithCount :=
  { topic_metadata := block_as_dict t.tm_block
    message_count := t.tm_message_count }

/-- The state of a `MetadataWriter` object: its private fields. -/
structure MetadataWriter where
  version : Int
  storage_identifier : String
  relative_file_paths : List String
  duration : Int
  starting_time : Int
  message_count : Int
  topics : List TopicMetadata
  compression_format : String
  compression_mode : String
deriving Repr, DecidableEq

/-- Constructor `MetadataWriter.__init__`. -/
def MetadataWriter.init : MetadataWriter :=
  { version := 0
    storage_identifier := ""
    relative_file_paths := []
    duration := 0
    starting_time := 0
    message_count := 0
    topics := []
    compression_format := ""
    compression_mode := "" }

/-- The `version` setter: raises on a negative value, state untouched. -/
def set_version (w : MetadataWriter) (x : Int) : MetadataWriter × Option PyError :=
  if x < 0 then
    (w, some (.valueError (print_error s!"Version must be greater than 0, got {x}")))
  else
    ({ w with version := x }, none)

/-- The `storage_identifier` setter (unvalidated). -/
def set_storage_identifier (w : MetadataWriter) (s : String) : MetadataWriter :=
  { w with storage_identifier := s }

/-- Method `add_rel_file_path`: raises on an absolute path, else appends `str(fp)`. -/
def add_rel_file_path (w : MetadataWriter) (fp : String) : MetadataWriter × Option PyError :=
  if pyIsAbsolute fp then
    (w, some (.valueError (print_error
      s!"Cannot add absolute path to relative filepaths. Got path: \"{fp}\"")))
  else
    ({ w with relative_file_paths := w.relative_file_paths ++ [fp] }, none)

/-- Method `add_multiple_rel_file_paths`: iterates the given paths, raising on the
first absolute one; paths already appended stay appended (the loop body
appends before the check of the next iteration). -/
def add_multiple_rel_file_paths (w : MetadataWriter) (fps : List String) :
    MetadataWriter × Option PyError :=
  match fps with
  | [] => (w, none)
  | p :: rest =>
    if pyIsAbsolute p then
      (w, some (.valueError (print_error
        s!"Cannot add absolute path to relative filepaths. Got path: \"{p}\"")))
    else
      add_multiple_rel_file_paths
        { w with relative_file_paths := w.relative_file_paths ++ [p] } rest

/-- The `duration` setter: raises on a negative value. -/
def set_duration (w : MetadataWriter) (x : Int) : MetadataWriter × Option PyError :=
  if x < 0 then
    (w, some (.valueError (print_error s!"Duration cannot be negative. Got {x}")))
  else
    ({ w with duration := x }, none)

/-- The `starting_time` setter: raises on a negative value. -/
def set_starting_time (w : MetadataWriter) (x : Int) : MetadataWriter × Option PyError :=
  if x < 0 then
    (w, some (.valueError (print_error s!"Starting time cannot be negative. Got {x}")))
  else
    ({ w with starting_time := x }, none)

/-- The `message_count` setter: raises on a negative value. -/
def set_message_count (w : MetadataWriter) (x : Int) : MetadataWriter × Option PyError :=
  if x < 0 then
    (w, some (.valueError (print_error s!"Message count cannot be negative. Got {x}")))
  else
    ({ w with message_count := x }, none)

/-- Method `add_topic`: raises on a negative count, else appends one `TopicMetadata`. -/
def add_topic (w : MetadataWriter) (topic_name topic_type topic_ser_fmt topic_qos : String)
    (topic_count : Int) : MetadataWriter × Option PyError :=
  if topic_count < 0 then
    (w, some (.valueError (print_error
      s!"Topic message count cannot be negative. Got {topic_count}")))
  else
    ({ w with topics := w.topics ++
        [{ tm_block :=
             { block_name := topic_name
               block_type := topic_type
               block_ser := topic_ser_fmt
               block_qos := topic_qos }
           tm_message_count := topic_count }] }, none)

/-- The `compression_format` setter (unvalidated). -/
def set_compression_format (w : MetadataWriter) (f : String) : MetadataWriter :=
  { w with compression_format := f }

/-- The `compression_mode` setter (unvalidated). -/
def set_compression_mode (w : MetadataWriter) (m : String) : MetadataWriter :=
  { w with compression_mode := m }

/-- Python string comparison `a <= b` on the underlying character (code
point) sequences: a prefix precedes its extensions, otherwise the first
differing characters decide. -/
def pyStrLeB : List Char → List Char → Bool
  | [], _ => true
  | _ :: _, [] => false
  | a :: as, b :: bs => if a = b then pyStrLeB as bs else decide (a < b)

/-- The Python `a <= b` relation on strings. -/
def pyLe (a b : String) : Prop :=
  pyStrLeB a.data b.data = true

instance pyLe.decidableRel : DecidableRel pyLe := fun _ _ =>
  inferInstanceAs (Decidable (_ = true))

/-- Models `list.sort()` on strings: sorts by lexicographic (code-point) order.
The Python sort is stable, and strings comparing equal are identical, so any
correct sort w.r.t. `pyLe` yields the same list; we use insertion sort. -/
def pySort (l : List String) : List String :=
  List.insertionSort pyLe l

/-- The dict returned by `_as_yaml_dict` (= the `serialize()` document):
exactly the keys the code writes, in their fixed order.  `duration` and
`starting_time` hold the nested one-key mappings. -/
structure YamlDict where
  version : Int
  storage_identifier : String
  relative_file_paths : List String
  duration_nanoseconds : Int
  starting_time_nanoseconds_since_epoch : Int
  message_count : Int
  topics_with_message_count : List TopicWithCount
  compression_format : String
  compression_mode : String
deriving Repr, DecidableEq

/-- Method `_as_yaml_dict` (the `serialize()` of the spec).  The first statement of
the method is `self.relative_file_paths.sort()`, which sorts the stored
list *in place*; the method therefore returns the document together with
the post-call object state. -/
def as_yaml_dict (w : MetadataWriter) : YamlDict × MetadataWriter :=
  let w' := { w with relative_file_paths := pySort w.relative_file_paths }
  let ordered_topics := w'.topics.map topic_as_dict
  ({ version := w'.version
     storage_identifier := w'.storage_identifier
     relative_file_paths := w'.relative_file_paths
     duration_nanoseconds := w'.duration
     starting_time_nanoseconds_since_epoch := w'.starting_time
     message_count := w'.message_count
     topics_with_message_count := ordered_topics
     compression_format := w'.compression_format
     compression_mode := w'.compression_mode }, w')

/-- A filesystem write performed by `write_yaml`: target path and the
document serialized there (under the top-level key
`rosbag2_bagfile_information`). -/
structure WriteEvent where
  path : String
  doc : YamlDict
deriving Repr, DecidableEq

/-- Method `write_yaml`: raises unless `bag_dir` is an existing directory
 (`bagDirIsDir` carries that filesystem fact); otherwise serializes and
writes `<bag_dir>/metadata.yaml`.  Returns post-state, optional error and
the writes performed. -/
def write_yaml (w : MetadataWriter) (bag_dir : String) (bagDirIsDir : Bool) :
    MetadataWriter × Option PyError × List WriteEvent :=
  if ¬ bagDirIsDir then
    (w, some (.valueError (print_error
      s!"Expected a directory to output yaml file to. Got path: \"{bag_dir}\"")), [])
  else
    let (yd, w') := as_yaml_dict w
    (w', none, [{ path := pyJoin bag_dir "metadata.yaml", doc := yd }])

/-! ### `reindex_sqlite.py`

The sqlite engine is the external data-storage backend (out of scope per
§1): the embedding takes as input the row list returned by the
aggregation query
`SELECT name, type, serialization_format, COUNT(messages.id),
MIN(messages.timestamp), MAX(messages.timestamp), offered_qos_profiles
FROM messages JOIN topics ON topics.id = messages.topic_id
GROUP BY topics.name` — one row per channel that has at least one
message (the inner join drops message-less channels, and a file with
zero records yields zero rows). -/

/-- One row of the aggregation query result, in the column order of the
SELECT: row[0]=name, row[1]=type, row[2]=serialization_format,
row[3]=COUNT, row[4]=MIN(timestamp), row[5]=MAX(timestamp), row[6]=qos. -/
structure DbRow where
  name : String
  type : String
  ser_fmt : String
  count : Int
  min_ts : Int
  max_ts : Int
  qos : String
deriving Repr, DecidableEq

/-- The value of `sys.maxsize` on a 64-bit platform. -/
def sys_maxsize : Int := 2 ^ 63 - 1

/-- One element of the `topic_metadata` list built by `get_metadata`. -/
structure TopicRow where
  topic_name : String
  topic_type : String
  topic_ser_fmt : String
  message_count : Int
  offered_qos_profiles : String
deriving Repr, DecidableEq

/-- The loop body of `get_metadata` applied to one row. -/
def rowToTopic (r : DbRow) : TopicRow :=
  { topic_name := r.name
    topic_type := r.type
    topic_ser_fmt := r.ser_fmt
    message_count := r.count
    offered_qos_profiles := r.qos }

/-- The `for row in c` loop of `get_metadata`, carrying the accumulators
`topics`, `min_time`, `max_time`. -/
def gmLoop : List DbRow → List TopicRow → Int → Int → List TopicRow × Int × Int
  | [], topics, min_time, max_time => (topics, min_time, max_time)
  | r :: rest, topics, min_time, max_time =>
    gmLoop rest (topics ++ [rowToTopic r])
      (if r.min_ts < min_time then r.min_ts else min_time)
      (if r.max_ts > max_time then r.max_ts else max_time)

/-- The dict returned by `get_metadata`: keys `topic_metadata`,
`min_time`, `max_time`. -/
structure GetMetadataResult where
  topic_metadata : List TopicRow
  min_time : Int
  max_time : Int
deriving Repr, DecidableEq

/-- Function `get_metadata`, given the rows the aggregation query returned:
initial values `topics = []`, `min_time = sys.maxsize`, `max_time = 0`,
then the aggregation loop. -/
def get_metadata (rows : List DbRow) : GetMetadataResult :=
  { topic_metadata := (gmLoop rows [] sys_maxsize 0).1
    min_time := (gmLoop rows [] sys_maxsize 0).2.1
    max_time := (gmLoop rows [] sys_maxsize 0).2.2 }

/-- Result of `reindex_sqlite.reindex`: the Python function returns `None`
or raises; `finalWriter` exposes the local `metadata` object as it stands
when the function falls off its end (for error runs it is `none`), and
`writes` records every `write_yaml` filesystem write the run performed —
the function body contains no such call, so every branch yields `[]`. -/
structure SqliteReindexResult where
  finalWriter : Option MetadataWriter
  error : Option PyError
  writes : List WriteEvent
deriving Repr, DecidableEq

/-- Function `reindex_sqlite.reindex uri serialization_fmt compression_fmt
compression_mode`, with the filesystem facts passed in: `uriIsDir` is
`Path(uri).is_dir()` and `entries` the file names `Path(uri).iterdir()`
enumerates (in enumeration order).  The body: directory check, then
`rel_file_paths = [f for f in uri_dir.iterdir() if f.suffix == ".db3"]`
(parent-joined paths), then a fresh writer gets version 4, storage
identifier `sqlite3`, the enumerated paths, and the two compression
fields — and the function ends, returning `None`. -/
def sqlite_reindex (uri : String) (uriIsDir : Bool) (entries : List String)
    (serialization_fmt compression_fmt compression_mode : String) : SqliteReindexResult :=
  if ¬ uriIsDir then
    { finalWriter := none
      error := some (.valueError (print_error
        s!"Reindex needs a bag directory. Was given path \"{uri}\""))
      writes := [] }
  else
    let rel_file_paths :=
      (entries.filter fun f => pySuffix f = ".db3").map (pyJoin uri)
    let m0 := MetadataWriter.init
    match set_version m0 4 with
    | (_, some e) => { finalWriter := none, error := some e, writes := [] }
    | (m1, none) =>
      let m2 := set_storage_identifier m1 "sqlite3"
      match add_multiple_rel_file_paths m2 rel_file_paths with
      | (_, some e) => { finalWriter := none, error := some e, writes := [] }
      | (m3, none) =>
        let m4 := set_compression_format m3 compression_fmt
        let m5 := set_compression_mode m4 compression_mode
        { finalWriter := some m5, error := none, writes := [] }

/-! ### `reindex_base.py` -/

/-- What `reindex_base.reindex` returns when it does not raise:
`returnedNone` models the implicit `return None` of the sqlite branch;
`returnedError msg` models `return print_error(...)` for an unsupported
storage id. -/
inductive BaseResult where
  | returnedNone
  | returnedError (msg : String)
deriving Repr, DecidableEq

/-- Function `reindex_base.reindex uri storage_id serialization_fmt compression_fmt
compression_mode`: dispatch on `storage_id`.  For `sqlite3` it delegates
(propagating any raised error); for anything else it returns the
`print_error` message naming the storage type and touches nothing. -/
def base_reindex (uri storage_id : String) (uriIsDir : Bool) (entries : List String)
    (serialization_fmt compression_fmt compression_mode : String) :
    (Option BaseResult × Option PyError) × List WriteEvent :=
  if storage_id = "sqlite3" then
    let r := sqlite_reindex uri uriIsDir entries serialization_fmt
      compression_fmt compression_mode
    match r.error with
    | some e => ((none, some e), r.writes)
    | none => ((some .returnedNone, none), r.writes)
  else
    ((some (.returnedError (print_error
      ("Reindex for storage type " ++ storage_id ++ " not implemented"))), none), [])

/-! ### Helper lemmas: the lexicographic order and `pySort` -/

theorem pyStrLeB_total : ∀ as bs : List Char, pyStrLeB as bs = true ∨ pyStrLeB bs as = true
  | [], _ => Or.inl rfl
  | _ :: _, [] => Or.inr rfl
  | a :: as, b :: bs => by
    by_cases hab : a = b
    · subst hab
      simpa [pyStrLeB] using pyStrLeB_total as bs
    · rcases lt_trichotomy a b with h | h | h
      · exact Or.inl (by simp [pyStrLeB, hab, h])
      · exact absurd h hab
      · exact Or.inr (by simp [pyStrLeB, Ne.symm hab, h])

theorem pyStrLeB_trans : ∀ as bs cs : List Char,
    pyStrLeB as bs = true → pyStrLeB bs cs = true → pyStrLeB as cs = true
  | [], _, _, _, _ => rfl
  | _ :: _, [], _, h1, _ => by simp [pyStrLeB] at h1
  | _ :: _, _ :: _, [], _, h2 => by simp [pyStrLeB] at h2
  | a :: as, b :: bs, c :: cs, h1, h2 => by
    by_cases hab : a = b <;> by_cases hbc : b = c
    · subst hab; subst hbc
      simp only [pyStrLeB, if_pos rfl] at h1 h2 ⊢
      exact pyStrLeB_trans as bs cs h1 h2
    · subst hab
      simpa [pyStrLeB, hbc] using h2
    · subst hbc
      simpa [pyStrLeB, hab] using h1
    · simp only [pyStrLeB, if_neg hab, if_neg hbc, decide_eq_true_eq] at h1 h2
      have hac : a < c := lt_trans h1 h2
      simp [pyStrLeB, ne_of_lt hac, hac]

instance pyLe.isTotal : IsTotal String pyLe :=
  ⟨fun a b => pyStrLeB_total a.data b.data⟩

instance pyLe.isTrans : IsTrans String pyLe :=
  ⟨fun a b c => pyStrLeB_trans a.data b.data c.data⟩

theorem pySort_sorted (l : List String) : List.Sorted pyLe (pySort l) :=
  List.sorted_insertionSort pyLe l

theorem pySort_perm (l : List String) : List.Perm (pySort l) l :=
  List.perm_insertionSort pyLe l

theorem pySort_idem (l : List String) : pySort (pySort l) = pySort l :=
  (pySort_sorted l).insertionSort_eq

/-! ### Helper lemmas: `add_multiple_rel_file_paths` -/

theorem add_multiple_ok (w : MetadataWriter) (fps : List String)
    (h : ∀ p ∈ fps, pyIsAbsolute p = false) :
    add_multiple_rel_file_paths w fps =
      ({ w with relative_file_paths := w.relative_file_paths ++ fps }, none) := by
  induction fps generalizing w with
  | nil => simp [add_multiple_rel_file_paths]
  | cons p rest ih =>
    have hp : pyIsAbsolute p = false := h p (List.mem_cons_self p rest)
    rw [add_multiple_rel_file_paths, if_neg (by simp [hp]),
      ih _ fun q hq => h q (List.mem_cons_of_mem p hq)]
    simp

theorem add_multiple_err (w : MetadataWriter) (fps : List String)
    (h : ∃ p ∈ fps, pyIsAbsolute p = true) :
    ∃ msg, add_multiple_rel_file_paths w fps =
      ({ w with relative_file_paths :=
          w.relative_file_paths ++ fps.takeWhile fun p => !pyIsAbsolute p },
       some (.valueError msg)) := by
  induction fps generalizing w with
  | nil => simp at h
  | cons p rest ih =>
    by_cases hp : pyIsAbsolute p = true
    · refine ⟨print_error
        s!"Cannot add absolute path to relative filepaths. Got path: \"{p}\"", ?_⟩
      rw [add_multiple_rel_file_paths, if_pos hp]
      simp [hp]
    · have hrest : ∃ q ∈ rest, pyIsAbsolute q = true := by
        rcases h with ⟨q, hq, habs⟩
        rcases List.mem_cons.mp hq with rfl | hq'
        · exact absurd habs hp
        · exact ⟨q, hq', habs⟩
      obtain ⟨msg, hmsg⟩ := ih _ hrest
      refine ⟨msg, ?_⟩
      rw [add_multiple_rel_file_paths, if_neg (by simp [hp]), hmsg]
      have hp' : pyIsAbsolute p = false := by simpa using hp
      simp [hp']

/-! ### Helper lemmas: the `get_metadata` aggregation loop -/

theorem gmLoop_topics : ∀ (rows : List DbRow) (ts : List TopicRow) (mn mx : Int),
    (gmLoop rows ts mn mx).1 = ts ++ rows.map rowToTopic
  | [], ts, _, _ => by simp [gmLoop]
  | r :: rest, ts, mn, mx => by
    rw [gmLoop, gmLoop_topics]
    simp

theorem gmLoop_min_spec : ∀ (rows : List DbRow) (ts : List TopicRow) (mn mx : Int),
    ((gmLoop rows ts mn mx).2.1 = mn ∨ ∃ r ∈ rows, (gmLoop rows ts mn mx).2.1 = r.min_ts)
      ∧ (gmLoop rows ts mn mx).2.1 ≤ mn
      ∧ ∀ r ∈ rows, (gmLoop rows ts mn mx).2.1 ≤ r.min_ts
  | [], _, _, _ => ⟨Or.inl rfl, le_refl _, by simp⟩
  | r :: rest, ts, mn, mx => by
    rw [gmLoop]
    obtain ⟨hmem, hle, hall⟩ :=
      gmLoop_min_spec rest (ts ++ [rowToTopic r])
        (if r.min_ts < mn then r.min_ts else mn) (if r.max_ts > mx then r.max_ts else mx)
    have hle_mn : (if r.min_ts < mn then r.min_ts else mn) ≤ mn := by
      split <;> omega
    have hle_r : (if r.min_ts < mn then r.min_ts else mn) ≤ r.min_ts := by
      split <;> omega
    refine ⟨?_, le_trans hle hle_mn, ?_⟩
    · rcases hmem with heq | ⟨q, hq, heq⟩
      · by_cases hcond : r.min_ts < mn
        · exact Or.inr ⟨r, List.mem_cons_self r rest, heq.trans (if_pos hcond)⟩
        · exact Or.inl (heq.trans (if_neg hcond))
      · exact Or.inr ⟨q, List.mem_cons_of_mem r hq, heq⟩
    · intro q hq
      rcases List.mem_cons.mp hq with rfl | hq'
      · exact le_trans hle hle_r
      · exact hall q hq'

theorem gmLoop_max_spec : ∀ (rows : List DbRow) (ts : List TopicRow) (mn mx : Int),
    ((gmLoop rows ts mn mx).2.2 = mx ∨ ∃ r ∈ rows, (gmLoop rows ts mn mx).2.2 = r.max_ts)
      ∧ mx ≤ (gmLoop rows ts mn mx).2.2
      ∧ ∀ r ∈ rows, r.max_ts ≤ (gmLoop rows ts mn mx).2.2
  | [], _, _, _ => ⟨Or.inl rfl, le_refl _, by simp⟩
  | r :: rest, ts, mn, mx => by
    rw [gmLoop]
    obtain ⟨hmem, hle, hall⟩ :=
      gmLoop_max_spec rest (ts ++ [rowToTopic r])
        (if r.min_ts < mn then r.min_ts else mn) (if r.max_ts > mx then r.max_ts else mx)
    have hge_mx : mx ≤ (if r.max_ts > mx then r.max_ts else mx) := by
      split <;> omega
    have hge_r : r.max_ts ≤ (if r.max_ts > mx then r.max_ts else mx) := by
      split <;> omega
    refine ⟨?_, le_trans hge_mx hle, ?_⟩
    · rcases hmem with heq | ⟨q, hq, heq⟩
      · by_cases hcond : r.max_ts > mx
        · exact Or.inr ⟨r, List.mem_cons_self r rest, heq.trans (if_pos hcond)⟩
        · exact Or.inl (heq.trans (if_neg hcond))
      · exact Or.inr ⟨q, List.mem_cons_of_mem r hq, heq⟩
    · intro q hq
      rcases List.mem_cons.mp hq with rfl | hq'
      · exact le_trans hge_r hle
      · exact hall q hq'

/-! ### Helper lemmas: paths -/

theorem pyJoin_abs (d n : String) (hd : pyIsAbsolute d = true) :
    pyIsAbsolute (pyJoin d n) = true := by
  obtain ⟨cs, hcs⟩ : ∃ cs, d.data = '/' :: cs := by
    unfold pyIsAbsolute at hd
    cases h : d.data with
    | nil => rw [h] at hd; simp at hd
    | cons c cs =>
      rw [h] at hd
      simp only [decide_eq_true_eq] at hd
      subst hd
      exact ⟨cs, rfl⟩
  have hne : d ≠ "" := fun h => by rw [h] at hcs; simp at hcs
  have hnd : d ≠ "." := fun h => by
    rw [h, show ("." : String).data = ['.'] from rfl] at hcs
    simp at hcs
  unfold pyJoin
  rw [if_neg (by simp [hne, hnd])]
  unfold pyIsAbsolute
  rw [String.data_append, String.data_append, hcs]
  simp

theorem pyJoin_not_abs (d n : String) (hd : pyIsAbsolute d = false)
    (hn : ('/' : Char) ∉ n.data) : pyIsAbsolute (pyJoin d n) = false := by
  have hnabs : pyIsAbsolute n = false := by
    unfold pyIsAbsolute
    cases h : n.data with
    | nil => rfl
    | cons c cs =>
      have : c ≠ '/' := fun he => hn (by rw [h, he]; exact List.mem_cons_self _ _)
      simp [this]
  unfold pyJoin
  by_cases hcase : d = "" ∨ d = "."
  · rw [if_pos hcase]; exact hnabs
  · rw [if_neg hcase]
    have hne : d ≠ "" := fun h => hcase (Or.inl h)
    obtain ⟨c, cs, hcs⟩ : ∃ c cs, d.data = c :: cs := by
      cases h : d.data with
      | nil => exact absurd (String.ext h) hne
      | cons c cs => exact ⟨c, cs, rfl⟩
    have hc : c ≠ '/' := by
      unfold pyIsAbsolute at hd
      rw [hcs] at hd
      simpa using hd
    unfold pyIsAbsolute
    rw [String.data_append, String.data_append, hcs]
    simp [hc]

/-! ### Claim theorems -/

/-- C3, counterexample: `serialize()` (`_as_yaml_dict`) is *not* free of side
effects — on the reachable writer state obtained by adding the relative paths
`"b.db3"` then `"a.db3"`, the post-call state differs from the pre-call state
(the stored path list has been reordered in place by the leading
`self.relative_file_paths.sort()`). -/
theorem C3_serialize_mutates_counterexample :
    (as_yaml_dict (add_multiple_rel_file_paths MetadataWriter.init ["b.db3", "a.db3"]).1).2 ≠
      (add_multiple_rel_file_paths MetadataWriter.init ["b.db3", "a.db3"]).1 := by
  decide

/-- C3, amended: `serialize()` (`_as_yaml_dict`) leaves every field of the
writer unchanged *except* the stored relative file path list, which it sorts
in place: the post-call state is exactly the pre-call state with its path
list replaced by its lexicographically sorted permutation (same elements,
possibly reordered). -/
theorem C3_serialize_frame (w : MetadataWriter) :
    (as_yaml_dict w).2 = { w with relative_file_paths := pySort w.relative_file_paths }
      ∧ List.Perm (as_yaml_dict w).2.relative_file_paths w.relative_file_paths
      ∧ (as_yaml_dict w).2.version = w.version
      ∧ (as_yaml_dict w).2.storage_identifier = w.storage_identifier
      ∧ (as_yaml_dict w).2.duration = w.duration
      ∧ (as_yaml_dict w).2.starting_time = w.starting_time
      ∧ (as_yaml_dict w).2.message_count = w.message_count
      ∧ (as_yaml_dict w).2.topics = w.topics
      ∧ (as_yaml_dict w).2.compression_format = w.compression_format
      ∧ (as_yaml_dict w).2.compression_mode = w.compression_mode :=
  ⟨rfl, pySort_perm _, rfl, rfl, rfl, rfl, rfl, rfl, rfl, rfl⟩

/-- C4: for every writer state, calling `serialize()` (`_as_yaml_dict`) twice
with no mutation in between yields identical output documents. -/
theorem C4_serialize_idempotent (w : MetadataWriter) :
    (as_yaml_dict (as_yaml_dict w).2).1 = (as_yaml_dict w).1 := by
  simp [as_yaml_dict, pySort_idem]

/-- C5: `serialize()` lists the relative file paths in lexicographic
(code-point) sort order — the output path list is sorted w.r.t. `pyLe` and is
a permutation of the stored paths, whatever their insertion order; in
particular paths added in order `["b.db3", "a.db3"]` are listed as
`["a.db3", "b.db3"]`. -/
theorem C5_paths_sorted (w : MetadataWriter) :
    List.Sorted pyLe (as_yaml_dict w).1.relative_file_paths
      ∧ List.Perm (as_yaml_dict w).1.relative_file_paths w.relative_file_paths
      ∧ (as_yaml_dict (add_multiple_rel_file_paths
          MetadataWriter.init ["b.db3", "a.db3"]).1).1.relative_file_paths
        = ["a.db3", "b.db3"] :=
  ⟨pySort_sorted w.relative_file_paths, pySort_perm w.relative_file_paths, by decide⟩

/-- C6: channels added via `add_topic` in order X, Y, Z are listed by
`serialize()` in exactly that insertion order (after any topics already
present), independent of their names or other properties. -/
theorem C6_channels_insertion_order (w : MetadataWriter)
    (nX tX sX qX nY tY sY qY nZ tZ sZ qZ : String) (cX cY cZ : Int)
    (hX : 0 ≤ cX) (hY : 0 ≤ cY) (hZ : 0 ≤ cZ) :
    (as_yaml_dict (add_topic (add_topic (add_topic w nX tX sX qX cX).1
        nY tY sY qY cY).1 nZ tZ sZ qZ cZ).1).1.topics_with_message_count
      = w.topics.map topic_as_dict ++
        [{ topic_metadata := ⟨nX, tX, sX, qX⟩, message_count := cX },
         { topic_metadata := ⟨nY, tY, sY, qY⟩, message_count := cY },
         { topic_metadata := ⟨nZ, tZ, sZ, qZ⟩, message_count := cZ }] := by
  have hX' : ¬ cX < 0 := by omega
  have hY' : ¬ cY < 0 := by omega
  have hZ' : ¬ cZ < 0 := by omega
  simp [add_topic, hX', hY', hZ', as_yaml_dict, topic_as_dict, block_as_dict]

/-- Witness for C6 at concrete topics. -/
theorem C6_channels_insertion_order_witness :
    YamlDict.topics_with_message_count
      (as_yaml_dict (add_topic (add_topic (add_topic MetadataWriter.init
        "/a" "A" "cdr" "qa" 1).1 "/b" "B" "cdr" "qb" 2).1 "/c" "C" "cdr" "qc" 3).1).1
      = [{ topic_metadata := ⟨"/a", "A", "cdr", "qa"⟩, message_count := 1 },
         { topic_metadata := ⟨"/b", "B", "cdr", "qb"⟩, message_count := 2 },
         { topic_metadata := ⟨"/c", "C", "cdr", "qc"⟩, message_count := 3 }] := by
  have h := C6_channels_insertion_order MetadataWriter.init
    "/a" "A" "cdr" "qa" "/b" "B" "cdr" "qb" "/c" "C" "cdr" "qc" 1 2 3
    (by decide) (by decide) (by decide)
  simpa [MetadataWriter.init] using h

/-- C7: every numeric setter (`message_count`, `version`, `duration`,
`starting_time`, and the per-channel count of `add_topic`) succeeds on a
non-negative value, which a subsequent read returns; on a negative value it
fails with a `ValueError` (the ValidationError of the spec) and the state is
unchanged. -/
theorem C7_numeric_setters (w : MetadataWriter) (n m : Int) (hn : 0 ≤ n) (hm : m < 0) :
    (set_message_count w n = ({ w with message_count := n }, none)
      ∧ (set_message_count w n).1.message_count = n)
    ∧ ((set_message_count w m).1 = w
      ∧ ∃ msg, (set_message_count w m).2 = some (.valueError msg))
    ∧ set_version w n = ({ w with version := n }, none)
    ∧ ((set_version w m).1 = w ∧ ∃ msg, (set_version w m).2 = some (.valueError msg))
    ∧ set_duration w n = ({ w with duration := n }, none)
    ∧ ((set_duration w m).1 = w ∧ ∃ msg, (set_duration w m).2 = some (.valueError msg))
    ∧ set_starting_time w n = ({ w with starting_time := n }, none)
    ∧ ((set_starting_time w m).1 = w
      ∧ ∃ msg, (set_starting_time w m).2 = some (.valueError msg))
    ∧ (∀ a b c d, (add_topic w a b c d n).2 = none
        ∧ (add_topic w a b c d n).1.topics = w.topics ++
            [{ tm_block := ⟨a, b, c, d⟩, tm_message_count := n }])
    ∧ (∀ a b c d, (add_topic w a b c d m).1 = w
        ∧ ∃ msg, (add_topic w a b c d m).2 = some (.valueError msg)) := by
  have hn' : ¬ n < 0 := by omega
  simp [set_message_count, set_version, set_duration, set_starting_time, add_topic, hn', hm]

/-- Witness for C7 at `n = 5`, `m = -1`. -/
theorem C7_numeric_setters_witness :
    (set_message_count MetadataWriter.init 5).1.message_count = 5
      ∧ (set_message_count MetadataWriter.init (-1)).1 = MetadataWriter.init := by
  have h := C7_numeric_setters MetadataWriter.init 5 (-1) (by decide) (by decide)
  exact ⟨h.1.2, h.2.1.1⟩

/-- C2, counterexample: `add_multiple_rel_file_paths` is *not* atomic — given
`["a.db3", "/b.db3"]` from the empty writer, the call fails (the second path
is absolute) and yet the stored path list has changed: `"a.db3"` was appended
before the absolute path was detected. -/
theorem C2_atomicity_counterexample :
    (add_multiple_rel_file_paths MetadataWriter.init ["a.db3", "/b.db3"]).2 ≠ none
      ∧ (add_multiple_rel_file_paths
          MetadataWriter.init ["a.db3", "/b.db3"]).1.relative_file_paths
        ≠ MetadataWriter.init.relative_file_paths := by
  decide

/-- C2, amended: `add_multiple_rel_file_paths` fails with a `ValueError` iff
some given path is absolute, and on failure exactly the relative paths
*preceding the first absolute one* have been appended (so the stored list may
change on a failing call); when every path is relative, all are appended.
`add_rel_file_path` on a single path behaves as the claim states: an absolute
path fails leaving the list unchanged, a relative path is appended and
appears in the `serialize()` path list. -/
theorem C2_add_paths (w : MetadataWriter) (fps : List String) (p : String) :
    ((∀ q ∈ fps, pyIsAbsolute q = false) →
        add_multiple_rel_file_paths w fps =
          ({ w with relative_file_paths := w.relative_file_paths ++ fps }, none))
    ∧ ((∃ q ∈ fps, pyIsAbsolute q = true) →
        (∃ msg, (add_multiple_rel_file_paths w fps).2 = some (.valueError msg))
        ∧ (add_multiple_rel_file_paths w fps).1.relative_file_paths =
            w.relative_file_paths ++ (fps.takeWhile fun q => !pyIsAbsolute q))
    ∧ (pyIsAbsolute p = true →
        add_rel_file_path w p = (w, some (.valueError (print_error
          s!"Cannot add absolute path to relative filepaths. Got path: \"{p}\""))))
    ∧ (pyIsAbsolute p = false →
        add_rel_file_path w p =
          ({ w with relative_file_paths := w.relative_file_paths ++ [p] }, none)
        ∧ p ∈ (as_yaml_dict (add_rel_file_path w p).1).1.relative_file_paths) := by
  refine ⟨add_multiple_ok w fps, fun h => ?_, fun h => ?_, fun h => ?_⟩
  · obtain ⟨msg, heq⟩ := add_multiple_err w fps h
    rw [heq]
    exact ⟨⟨msg, rfl⟩, rfl⟩
  · rw [add_rel_file_path, if_pos h]
  · have heq : add_rel_file_path w p =
        ({ w with relative_file_paths := w.relative_file_paths ++ [p] }, none) := by
      rw [add_rel_file_path, if_neg (by simp [h])]
    refine ⟨heq, ?_⟩
    rw [heq]
    exact (pySort_perm (w.relative_file_paths ++ [p])).mem_iff.2 (by simp)

/-- Witness for C2 at concrete paths. -/
theorem C2_add_paths_witness :
    (add_multiple_rel_file_paths MetadataWriter.init
        ["a.db3", "/b.db3"]).1.relative_file_paths = ["a.db3"]
      ∧ "c.db3" ∈ (as_yaml_dict
          (add_rel_file_path MetadataWriter.init "c.db3").1).1.relative_file_paths := by
  have h := C2_add_paths MetadataWriter.init ["a.db3", "/b.db3"] "c.db3"
  refine ⟨?_, (h.2.2.2 (by decide)).2⟩
  have h2 := (h.2.1 ⟨"/b.db3", by decide, by decide⟩).2
  rw [h2]
  decide

/-- C8: `get_metadata` on the empty row set (a data-storage file with zero
records, for which the inner-join aggregation query returns no rows) yields
an empty channel list and the sentinel bounds `min_time = sys.maxsize`,
`max_time = 0`; on a non-empty row set (timestamps within the int64 sentinel
range) it yields one channel entry per row and the global minimum and
maximum of the per-channel timestamp bounds. -/
theorem C8_get_metadata (rows : List DbRow) (hne : rows ≠ [])
    (hmin : ∀ r ∈ rows, r.min_ts ≤ sys_maxsize) (hmax : ∀ r ∈ rows, 0 ≤ r.max_ts) :
    get_metadata [] = { topic_metadata := [], min_time := sys_maxsize, max_time := 0 }
    ∧ (get_metadata rows).topic_metadata = rows.map rowToTopic
    ∧ ((∃ r ∈ rows, (get_metadata rows).min_time = r.min_ts)
        ∧ ∀ r ∈ rows, (get_metadata rows).min_time ≤ r.min_ts)
    ∧ ((∃ r ∈ rows, (get_metadata rows).max_time = r.max_ts)
        ∧ ∀ r ∈ rows, r.max_ts ≤ (get_metadata rows).max_time) := by
  obtain ⟨hmem1, hle1, hall1⟩ := gmLoop_min_spec rows [] sys_maxsize 0
  obtain ⟨hmem2, hle2, hall2⟩ := gmLoop_max_spec rows [] sys_maxsize 0
  obtain ⟨r0, rest, rfl⟩ : ∃ r0 rest, rows = r0 :: rest := by
    cases rows with
    | nil => exact absurd rfl hne
    | cons a l => exact ⟨a, l, rfl⟩
  have hr0 : r0 ∈ r0 :: rest := List.mem_cons_self r0 rest
  simp only [get_metadata]
  refine ⟨rfl, by simpa using gmLoop_topics (r0 :: rest) [] sys_maxsize 0,
    ⟨?_, hall1⟩, ⟨?_, hall2⟩⟩
  · rcases hmem1 with heq | hex
    · exact ⟨r0, hr0, le_antisymm (hall1 r0 hr0) (le_of_le_of_eq (hmin r0 hr0) heq.symm)⟩
    · exact hex
  · rcases hmem2 with heq | hex
    · exact ⟨r0, hr0, le_antisymm (le_of_eq_of_le heq (hmax r0 hr0)) (hall2 r0 hr0)⟩
    · exact hex

/-- Witness for C8 on a one-channel row set. -/
theorem C8_get_metadata_witness :
    (get_metadata [⟨"/t", "T", "cdr", 2, 5, 9, "q"⟩]).min_time = 5
      ∧ (get_metadata [⟨"/t", "T", "cdr", 2, 5, 9, "q"⟩]).max_time = 9 := by
  have h := C8_get_metadata [⟨"/t", "T", "cdr", 2, 5, 9, "q"⟩]
    (by decide) (by decide) (by decide)
  obtain ⟨r1, hr1, he1⟩ := h.2.2.1.1
  obtain ⟨r2, hr2, he2⟩ := h.2.2.2.1
  rw [List.mem_singleton] at hr1 hr2
  subst hr1; subst hr2
  exact ⟨he1, he2⟩

/-! ### Helper lemmas: evaluating `sqlite_reindex` past its fixed prefix

After the directory check, `reindex` sets version 4 and storage identifier
`sqlite3` on a fresh writer; the outcome then hinges on
`add_multiple_rel_file_paths` over the enumerated `.db3` paths. -/

/-- The writer state just before the path-adding call of `sqlite_reindex`. -/
def preAddWriter : MetadataWriter :=
  { version := 4
    storage_identifier := "sqlite3"
    relative_file_paths := []
    duration := 0
    starting_time := 0
    message_count := 0
    topics := []
    compression_format := ""
    compression_mode := "" }

theorem sqlite_reindex_err (uri : String) (entries : List String) (sf cf cm : String)
    (m : MetadataWriter) (e : PyError)
    (h : add_multiple_rel_file_paths preAddWriter
        ((entries.filter fun f => pySuffix f = ".db3").map (pyJoin uri)) = (m, some e)) :
    sqlite_reindex uri true entries sf cf cm =
      { finalWriter := none, error := some e, writes := [] } := by
  unfold sqlite_reindex
  rw [if_neg (by simp)]
  simp only [set_version, set_storage_identifier, MetadataWriter.init]
  norm_num
  rw [show (⟨4, "sqlite3", [], 0, 0, 0, [], "", ""⟩ : MetadataWriter) = preAddWriter
    from rfl, h]

theorem sqlite_reindex_ok (uri : String) (entries : List String) (sf cf cm : String)
    (m : MetadataWriter)
    (h : add_multiple_rel_file_paths preAddWriter
        ((entries.filter fun f => pySuffix f = ".db3").map (pyJoin uri)) = (m, none)) :
    sqlite_reindex uri true entries sf cf cm =
      { finalWriter := some { m with compression_format := cf, compression_mode := cm }
        error := none, writes := [] } := by
  unfold sqlite_reindex
  rw [if_neg (by simp)]
  simp only [set_version, set_storage_identifier, MetadataWriter.init]
  norm_num
  rw [show (⟨4, "sqlite3", [], 0, 0, 0, [], "", ""⟩ : MetadataWriter) = preAddWriter
    from rfl, h]
  rfl

theorem string_append_assoc (a b c : String) : a ++ b ++ c = a ++ (b ++ c) :=
  String.ext (by simp [String.data_append, List.append_assoc])

/-- C9: `reindex_base.reindex` with any `storage_id` other than `"sqlite3"`
returns the `print_error` message naming that storage id (the UnsupportedBackendError
of the spec), raises no `ValueError` (so it is distinguishable
from a ValidationError — a returned message, not a raised exception), and
performs no filesystem writes. -/
theorem C9_unsupported_backend (uri storage_id : String) (uriIsDir : Bool)
    (entries : List String) (sf cf cm : String) (h : storage_id ≠ "sqlite3") :
    base_reindex uri storage_id uriIsDir entries sf cf cm =
      ((some (.returnedError
          ("Error: " ++ ("Reindex for storage type " ++ storage_id ++ " not implemented"))),
        none), [])
    ∧ "Error: " ++ ("Reindex for storage type " ++ storage_id ++ " not implemented")
        = "Error: Reindex for storage type " ++ storage_id ++ " not implemented" := by
  constructor
  · simp only [base_reindex, if_neg h]
    rfl
  · have lit : ("Error: " : String) ++ "Reindex for storage type "
        = "Error: Reindex for storage type " := by decide
    rw [string_append_assoc "Reindex for storage type " storage_id " not implemented",
      ← string_append_assoc "Error: " "Reindex for storage type "
        (storage_id ++ " not implemented"),
      lit, string_append_assoc]

/-- Witness for C9 at the unsupported backend id `"mcap"`. -/
theorem C9_unsupported_backend_witness :
    base_reindex "bag" "mcap" true ["a.db3"] "cdr" "" "" =
      ((some (.returnedError "Error: Reindex for storage type mcap not implemented"),
        none), []) := by
  have h := C9_unsupported_backend "bag" "mcap" true ["a.db3"] "cdr" "" "" (by decide)
  rw [h.1]
  decide

/-- C10 (implicit): `Path.iterdir` yields directory-joined paths, so the
paths `sqlite_reindex` stores are `uri`-joined enumerated paths, not bare
file names.  Consequently, on an *absolute* existing directory containing at
least one `.db3` file, the joined paths are absolute and
`add_multiple_rel_file_paths` raises a `ValueError` (the ValidationError
of the spec); on a relative directory the run succeeds and the stored
path list is exactly the joined `.db3` entries. -/
theorem C10_joined_paths (uri : String) (entries : List String) (sf cf cm : String) :
    (pyIsAbsolute uri = true → (∃ n ∈ entries, pySuffix n = ".db3") →
        ∃ msg, sqlite_reindex uri true entries sf cf cm =
          { finalWriter := none, error := some (.valueError msg), writes := [] })
    ∧ (pyIsAbsolute uri = false → (∀ n ∈ entries, ('/' : Char) ∉ n.data) →
        sqlite_reindex uri true entries sf cf cm =
          { finalWriter := some { preAddWriter with
              relative_file_paths :=
                (entries.filter fun f => pySuffix f = ".db3").map (pyJoin uri),
              compression_format := cf, compression_mode := cm }
            error := none, writes := [] }) := by
  constructor
  · intro habs ⟨n, hn, hsuf⟩
    have hex : ∃ p ∈ (entries.filter fun f => pySuffix f = ".db3").map (pyJoin uri),
        pyIsAbsolute p = true := by
      refine ⟨pyJoin uri n, List.mem_map_of_mem _ ?_, pyJoin_abs uri n habs⟩
      exact List.mem_filter.2 ⟨hn, by simp [hsuf]⟩
    obtain ⟨msg, heq⟩ := add_multiple_err preAddWriter _ hex
    exact ⟨msg, sqlite_reindex_err uri entries sf cf cm _ _ heq⟩
  · intro hrel hnames
    have hall : ∀ p ∈ (entries.filter fun f => pySuffix f = ".db3").map (pyJoin uri),
        pyIsAbsolute p = false := by
      intro p hp
      obtain ⟨n, hn, rfl⟩ := List.mem_map.1 hp
      exact pyJoin_not_abs uri n hrel (hnames n (List.mem_filter.1 hn).1)
    have heq := add_multiple_ok preAddWriter _ hall
    rw [sqlite_reindex_ok uri entries sf cf cm _ heq]
    simp [preAddWriter]

/-- Witness for C10: an absolute bag directory fails, a relative one stores
the joined paths. -/
theorem C10_joined_paths_witness :
    (∃ msg, sqlite_reindex "/bags/run1" true ["a.db3"] "cdr" "" "" =
      { finalWriter := none, error := some (.valueError msg), writes := [] })
    ∧ sqlite_reindex "bag" true ["a.db3"] "cdr" "" "" =
      { finalWriter := some { preAddWriter with relative_file_paths := ["bag/a.db3"] }
        error := none, writes := [] } := by
  constructor
  · exact (C10_joined_paths "/bags/run1" ["a.db3"] "cdr" "" "").1 (by decide)
      ⟨"a.db3", by decide, by decide⟩
  · have h := (C10_joined_paths "bag" ["a.db3"] "cdr" "" "").2 (by decide) (by decide)
    rw [h]
    decide

/-- C1: contrary to the claim, `reindex` for backend `"sqlite3"` on an
existing directory with two `.db3` files writes nothing at all: it never
invokes `get_metadata` on any data file and never calls `write_yaml` — the
locally built writer (holding only version, storage id, the
directory-joined paths in enumeration order, and the compression fields,
with zero counts and no topics) is discarded and the call returns `None`
with an empty write trace, so no metadata document listing the two file
names ever reaches the archive directory. -/
theorem C1_reindex_writes_no_document :
    base_reindex "bag" "sqlite3" true ["b.db3", "a.db3"] "cdr" "" ""
      = ((some .returnedNone, none), [])
    ∧ sqlite_reindex "bag" true ["b.db3", "a.db3"] "cdr" "" ""
      = { finalWriter := some
            { preAddWriter with relative_file_paths := ["bag/b.db3", "bag/a.db3"] }
          error := none, writes := [] } := by
  constructor
  · decide
  · decide

end Rosbag2
